import Mathlib

/-!
Shallow embedding of `broadlink/exceptions.py`: the Broadlink error
taxonomy, the code table `BROADLINK_EXCEPTIONS`, the factory `exception`,
the guard `check_error`, and the `MultipleErrors` aggregate.
-/

set_option autoImplicit false

namespace Broadlink

/-- A Python value passed as an exception constructor argument: in this
module arguments are integers (error codes) or strings (messages). -/
inductive PyVal where
  | int (n : Int)
  | str (s : String)
deriving DecidableEq, Hashable

/-- Python `str()` on an argument value: decimal rendering for ints, the
string itself for strings. -/
def pyStr : PyVal → String
  | .int n => toString n
  | .str s => s

/-- A single-quote character, used by Python `repr` of strings. -/
def squote : String := String.singleton (Char.ofNat 39)

/-- Python `repr()` on an argument value: ints render in decimal, strings
are wrapped in single quotes (none of the module message strings
contains a quote or an escape-worthy character). -/
def pyRepr : PyVal → String
  | .int n => toString n
  | .str s => squote ++ s ++ squote

/-- The closed set of exception classes defined by the module
(`type(self)` in the Python code). -/
inductive ExceptionType where
  | BroadlinkException
  | MultipleErrors
  | AuthenticationError
  | AuthorizationError
  | CommandNotSupportedError
  | ConnectionClosedError
  | StructureAbnormalError
  | DeviceOfflineError
  | ReadError
  | SendError
  | SSIDNotFoundError
  | StorageError
  | WriteError
  | NetworkTimeoutError
  | DataValidationError
  | UnknownError
deriving DecidableEq, Hashable

/-- Python class name of an exception type, as used by `repr`. -/
def typeName : ExceptionType → String
  | .BroadlinkException => "BroadlinkException"
  | .MultipleErrors => "MultipleErrors"
  | .AuthenticationError => "AuthenticationError"
  | .AuthorizationError => "AuthorizationError"
  | .CommandNotSupportedError => "CommandNotSupportedError"
  | .ConnectionClosedError => "ConnectionClosedError"
  | .StructureAbnormalError => "StructureAbnormalError"
  | .DeviceOfflineError => "DeviceOfflineError"
  | .ReadError => "ReadError"
  | .SendError => "SendError"
  | .SSIDNotFoundError => "SSIDNotFoundError"
  | .StorageError => "StorageError"
  | .WriteError => "WriteError"
  | .NetworkTimeoutError => "NetworkTimeoutError"
  | .DataValidationError => "DataValidationError"
  | .UnknownError => "UnknownError"

/-- Python `": ".join(strings)`: empty string for no elements, otherwise
the elements separated by the separator. -/
def joinSep (sep : String) : List String → String
  | [] => ""
  | [x] => x
  | x :: y :: rest => x ++ sep ++ joinSep sep (y :: rest)

/-- A `BroadlinkException` instance: its runtime class, the positional
argument tuple `self.args` stored by `Exception.__init__`, and the two
attributes `self.errno` and `self.strerror` computed by
`BroadlinkException.__init__`. -/
structure BLException where
  ty : ExceptionType
  args : List PyVal
  errno : Option PyVal
  strerror : String
deriving DecidableEq, Hashable

/-- `BroadlinkException.__init__(*args)`: with two or more arguments,
`errno` is the first argument and `strerror` joins the `str()` of the
remaining arguments with `": "`; with one argument, `errno` is `None`
and `strerror` is `str(args[0])`; with none, `errno` is `None` and
`strerror` is the empty string. -/
def initException (ty : ExceptionType) (args : List PyVal) : BLException :=
  match args with
  | [] => { ty := ty, args := [], errno := none, strerror := "" }
  | [a] => { ty := ty, args := [a], errno := none, strerror := pyStr a }
  | a :: b :: rest =>
      { ty := ty, args := a :: b :: rest, errno := some a
      , strerror := joinSep ": " ((b :: rest).map pyStr) }

/-- `BroadlinkException.__str__`: `"[Errno <errno>] <strerror>"` when an
errno is present, otherwise `strerror` alone. -/
def strException (e : BLException) : String :=
  match e.errno with
  | some c => "[Errno " ++ pyStr c ++ "] " ++ e.strerror
  | none => e.strerror

/-- `BroadlinkException.__eq__`: `type(self) == type(other) and
self.args == other.args`. -/
def eqException (a b : BLException) : Bool :=
  decide (a.ty = b.ty) && decide (a.args = b.args)

/-- `BroadlinkException.__hash__`: `hash((type(self), self.args))` — a
function of exactly the type and the argument tuple. -/
def hashException (e : BLException) : UInt64 :=
  hash (e.ty, e.args)

/-- `BaseException.__repr__`: the class name followed by the
parenthesised `repr`s of the arguments, comma separated. -/
def reprException (e : BLException) : String :=
  typeName e.ty ++ "(" ++ joinSep ", " (e.args.map pyRepr) ++ ")"

/-- The frequency table `collections.Counter(errors)` in first-insertion
order: a fold that bumps the count of the first equal key (under
`__eq__`) or appends a fresh key with count 1. -/
def counterItems (errors : List BLException) : List (BLException × Nat) :=
  errors.foldl
    (fun acc e =>
      if acc.any (fun p => eqException p.1 e) then
        acc.map (fun p => if eqException p.1 e then (p.1, p.2 + 1) else p)
      else acc ++ [(e, 1)])
    []

/-- Stable insertion, descending by count: the new item goes in front of
the first element whose count does not exceed it. -/
def insertDesc (p : BLException × Nat) :
    List (BLException × Nat) → List (BLException × Nat)
  | [] => [p]
  | q :: rest => if q.2 ≤ p.2 then p :: q :: rest else q :: insertDesc p rest

/-- `Counter.most_common()`: the items sorted by count descending;
Python `sorted` is stable, so ties keep first-insertion order. -/
def mostCommon (items : List (BLException × Nat)) :
    List (BLException × Nat) :=
  items.foldr insertDesc []

/-- `Counter.__repr__`: `Counter()` when empty, otherwise
`Counter(\x7b<key repr>: <count>, ...\x7d)` in `most_common` order. -/
def counterRepr (items : List (BLException × Nat)) : String :=
  match items with
  | [] => "Counter()"
  | _ =>
      "Counter(\x7b" ++
        joinSep ", "
          (items.map (fun p => reprException p.1 ++ ": " ++ toString p.2)) ++
        "\x7d)"

/-- The summary string computed by `MultipleErrors.__init__`:
`"Multiple errors occurred: %s" % collections.Counter(errors)`. -/
def multipleErrorsSummary (errors : List BLException) : String :=
  "Multiple errors occurred: " ++ counterRepr (mostCommon (counterItems errors))

/-- A `MultipleErrors` instance: the underlying exception state set by
`super().__init__(strerror)` plus the `self.errors` attribute holding a
copy of the input sequence. -/
structure MultipleErrorsObj where
  exc : BLException
  errors : List BLException
deriving DecidableEq

/-- `MultipleErrors.__init__`: copies the input sequence, computes the
Counter summary, and calls `super().__init__` with the summary as the
single argument. -/
def mkMultipleErrors (errors : List BLException) : MultipleErrorsObj :=
  { exc := initException .MultipleErrors
      [PyVal.str (multipleErrorsSummary errors)]
  , errors := errors }

/-- The module-level dict `BROADLINK_EXCEPTIONS`, as the ordered list of
its `(code, (class, message))` entries. -/
def BROADLINK_EXCEPTIONS : List (Int × ExceptionType × String) :=
  [ (-1, (.AuthenticationError, "Authentication failed"))
  , (-2, (.ConnectionClosedError, "You have been logged out"))
  , (-3, (.DeviceOfflineError, "The device is offline"))
  , (-4, (.CommandNotSupportedError, "Command not supported"))
  , (-5, (.StorageError, "The device storage is full"))
  , (-6, (.StructureAbnormalError, "Structure is abnormal"))
  , (-7, (.AuthorizationError, "Control key is expired"))
  , (-8, (.SendError, "Send error"))
  , (-9, (.WriteError, "Write error"))
  , (-10, (.ReadError, "Read error"))
  , (-11, (.SSIDNotFoundError, "SSID could not be found in AP configuration"))
  , (-2040, (.DataValidationError, "Device information is not intact"))
  , (-4000, (.NetworkTimeoutError, "Network timeout"))
  , (-4007, (.DataValidationError, "Received data packet length error"))
  , (-4008, (.DataValidationError, "Received data packet check error"))
  , (-4009, (.DataValidationError, "Received data packet information type error"))
  , (-4010, (.DataValidationError, "Received encrypted data packet length error"))
  , (-4011, (.DataValidationError, "Received encrypted data packet check error"))
  , (-4012, (.AuthorizationError, "Device control ID error"))
  ]

/-- Dict lookup `BROADLINK_EXCEPTIONS[err_code]` as an option. -/
def lookupExc (code : Int) : Option (ExceptionType × String) :=
  (BROADLINK_EXCEPTIONS.find? (fun p => p.1 == code)).map (fun p => p.2)

/-- The factory `exception(err_code)`: build the mapped class with
`(err_code, msg)` when the code is in the table, otherwise
`UnknownError(err_code, "Unknown error")`. -/
def exception (err_code : Int) : BLException :=
  match lookupExc err_code with
  | some (exc, msg) => initException exc [PyVal.int err_code, PyVal.str msg]
  | none => initException .UnknownError [PyVal.int err_code, PyVal.str "Unknown error"]

/-- Decoding of two bytes as a little-endian signed 16-bit integer, the
payload of `struct.unpack("h", error)` on a 2-byte input. -/
def decode16 (b0 b1 : Fin 256) : Int :=
  let u : Nat := b0.val + 256 * b1.val
  if u < 32768 then (u : Int) else (u : Int) - 65536

/-- `struct.unpack("h", error)[0]`: `some` of the decoded signed 16-bit
value on a 2-byte input, `none` (a `struct.error`) otherwise. -/
def unpack_h (b : List (Fin 256)) : Option Int :=
  match b with
  | [b0, b1] => some (decode16 b0 b1)
  | _ => none

/-- Outcome of `check_error`: normal return, a raised Broadlink
exception, or the `struct.error` escaping from `struct.unpack` when the
input width is wrong. -/
inductive CheckResult where
  | ok
  | raised (e : BLException)
  | structError
deriving DecidableEq

/-- `check_error(error)`: unpack the 2-byte signed field; raise
`exception(error_code)` when the code is truthy (non-zero), return
normally when it is zero, and let the decoding error escape on a
wrong-width input. -/
def check_error (b : List (Fin 256)) : CheckResult :=
  match unpack_h b with
  | none => .structError
  | some code => if code ≠ 0 then .raised (exception code) else .ok

/-- Modelled from the spec: the code table as the specification's section
6 lists it, row by row (`Kind` column mapped to the corresponding
exception class). Compared against `BROADLINK_EXCEPTIONS` for the
table-contents claim. -/
def SPEC_CODE_TABLE : List (Int × ExceptionType × String) :=
  [ (-1, (.AuthenticationError, "Authentication failed"))
  , (-2, (.ConnectionClosedError, "You have been logged out"))
  , (-3, (.DeviceOfflineError, "The device is offline"))
  , (-4, (.CommandNotSupportedError, "Command not supported"))
  , (-5, (.StorageError, "The device storage is full"))
  , (-6, (.StructureAbnormalError, "Structure is abnormal"))
  , (-7, (.AuthorizationError, "Control key is expired"))
  , (-8, (.SendError, "Send error"))
  , (-9, (.WriteError, "Write error"))
  , (-10, (.ReadError, "Read error"))
  , (-11, (.SSIDNotFoundError, "SSID could not be found in AP configuration"))
  , (-2040, (.DataValidationError, "Device information is not intact"))
  , (-4000, (.NetworkTimeoutError, "Network timeout"))
  , (-4007, (.DataValidationError, "Received data packet length error"))
  , (-4008, (.DataValidationError, "Received data packet check error"))
  , (-4009, (.DataValidationError, "Received data packet information type error"))
  , (-4010, (.DataValidationError, "Received encrypted data packet length error"))
  , (-4011, (.DataValidationError, "Received encrypted data packet check error"))
  , (-4012, (.AuthorizationError, "Device control ID error"))
  ]

/-- Concrete error used in examples: `exception(-1)`. -/
def excA : BLException := exception (-1)

/-- Concrete error used in examples: `exception(-2)`. -/
def excB : BLException := exception (-2)

end Broadlink

open Broadlink

/-! Theorems for the specification claims. -/

/-- C1: every entry of the code table classifies to an error of the
mapped kind carrying the code as its errno and the table message as its
message, and the table is exactly the 19 rows the specification lists. -/
theorem C1_code_table_classify :
    BROADLINK_EXCEPTIONS = SPEC_CODE_TABLE ∧
    BROADLINK_EXCEPTIONS.length = 19 ∧
    ∀ p ∈ BROADLINK_EXCEPTIONS,
      (exception p.1).ty = p.2.1 ∧
      (exception p.1).errno = some (PyVal.int p.1) ∧
      (exception p.1).strerror = p.2.2 := by
  refine ⟨rfl, rfl, ?_⟩
  decide

/-- Witness for C1 at the table row for code -7. -/
theorem C1_code_table_classify_witness :
    (exception (-7)).ty = ExceptionType.AuthorizationError ∧
    (exception (-7)).errno = some (PyVal.int (-7)) ∧
    (exception (-7)).strerror = "Control key is expired" :=
  C1_code_table_classify.2.2
    (-7, (ExceptionType.AuthorizationError, "Control key is expired"))
    (by decide)

/-- C2: for any code outside the table, `exception` returns an
`UnknownError` with that code and message "Unknown error"; and for every
signed integer input it totally returns a typed error that carries the
input code as its errno. -/
theorem C2_unmapped_code_unknown (code : Int) :
    (lookupExc code = none →
      exception code
        = initException ExceptionType.UnknownError
            [PyVal.int code, PyVal.str "Unknown error"] ∧
      (exception code).ty = ExceptionType.UnknownError ∧
      (exception code).strerror = "Unknown error") ∧
    (exception code).errno = some (PyVal.int code) := by
  constructor
  · intro h
    simp [exception, h, initException, joinSep, pyStr]
  · cases h : lookupExc code with
    | none => simp [exception, h, initException]
    | some p =>
        obtain ⟨t, m⟩ := p
        simp [exception, h, initException]

/-- Witness for C2 at the unmapped code 42. -/
theorem C2_unmapped_code_unknown_witness :
    exception 42
      = initException ExceptionType.UnknownError
          [PyVal.int 42, PyVal.str "Unknown error"] ∧
    (exception 42).ty = ExceptionType.UnknownError ∧
    (exception 42).strerror = "Unknown error" :=
  (C2_unmapped_code_unknown 42).1 (by decide)

/-- C3: on any 2-byte input, `check_error` decodes a signed 16-bit
integer and returns normally exactly when the decoded value is zero;
for any non-zero decoded code it raises exactly `exception(code)`. -/
theorem C3_check_two_bytes (b0 b1 : Fin 256) :
    unpack_h [b0, b1] = some (decode16 b0 b1) ∧
    (-32768 ≤ decode16 b0 b1 ∧ decode16 b0 b1 ≤ 32767) ∧
    check_error [b0, b1]
      = (if decode16 b0 b1 = 0 then CheckResult.ok
         else CheckResult.raised (exception (decode16 b0 b1))) := by
  refine ⟨rfl, ?_, ?_⟩
  · have h0 := b0.isLt
    have h1 := b1.isLt
    simp only [decode16]
    split <;> omega
  · by_cases h : decode16 b0 b1 = 0 <;> simp [check_error, unpack_h, h]

/-- C4: the 2-byte field is read little-endian: bytes `FD FF` decode to
-3, and `check_error` on them raises the `DeviceOfflineError` carrying
code -3 and message "The device is offline". -/
theorem C4_little_endian_device_offline :
    decode16 (0xFD : Fin 256) (0xFF : Fin 256) = -3 ∧
    check_error [(0xFD : Fin 256), (0xFF : Fin 256)]
      = CheckResult.raised (exception (-3)) ∧
    (exception (-3)).ty = ExceptionType.DeviceOfflineError ∧
    (exception (-3)).errno = some (PyVal.int (-3)) ∧
    (exception (-3)).strerror = "The device is offline" := by
  decide

/-- C5: two errors compare equal exactly when they have the same class
and the same argument tuple; different classes are never equal, whatever
the arguments; and equal errors have equal hashes. -/
theorem C5_equality_hash_contract (a b : BLException) :
    (eqException a b = true ↔ a.ty = b.ty ∧ a.args = b.args) ∧
    (a.ty ≠ b.ty → eqException a b = false) ∧
    (eqException a b = true → hashException a = hashException b) := by
  refine ⟨?_, ?_, ?_⟩
  · simp [eqException]
  · intro h
    simp [eqException, h]
  · intro h
    have h2 : a.ty = b.ty ∧ a.args = b.args := by
      simpa [eqException] using h
    unfold hashException
    rw [h2.1, h2.2]

/-- Witness for C5: AuthenticationError and AuthorizationError built
with the same code and message are unequal, and an error hashes equal
to itself. -/
theorem C5_equality_hash_contract_witness :
    eqException
      (initException ExceptionType.AuthenticationError
        [PyVal.int (-1), PyVal.str "m"])
      (initException ExceptionType.AuthorizationError
        [PyVal.int (-1), PyVal.str "m"]) = false ∧
    hashException excA = hashException excA :=
  ⟨(C5_equality_hash_contract _ _).2.1 (by decide),
   (C5_equality_hash_contract excA excA).2.2 (by decide)⟩

/-- C6: the display form is `"[Errno <code>] <message>"` when an errno
is carried and the message alone when none is. -/
theorem C6_display_form (e : BLException) :
    (∀ c : PyVal, e.errno = some c →
      strException e = "[Errno " ++ pyStr c ++ "] " ++ e.strerror) ∧
    (e.errno = none → strException e = e.strerror) := by
  constructor
  · intro c h
    simp [strException, h]
  · intro h
    simp [strException, h]

/-- Witness for C6 at `exception(-3)` and at a one-argument error. -/
theorem C6_display_form_witness :
    strException (exception (-3)) = "[Errno -3] The device is offline" ∧
    strException
      (initException ExceptionType.BroadlinkException [PyVal.str "hello"])
      = "hello" :=
  ⟨((C6_display_form (exception (-3))).1 (PyVal.int (-3))
      (by decide)).trans (by decide),
   ((C6_display_form
      (initException ExceptionType.BroadlinkException [PyVal.str "hello"])).2
      (by decide)).trans (by decide)⟩

/-- C7 counterexample: for the concrete distinct errors `exception(-1)`
and `exception(-2)`, the summary of `MultipleErrors([errA, errA, errB])`
is not the claimed
`"Multiple errors occurred: \x7bErrorA: 2, ErrorB: 1\x7d"` form (the
rendered Counter wraps the braces in `Counter(...)`), so the claim as
stated fails at this input. -/
theorem C7_summary_form_counterexample :
    ¬ ((mkMultipleErrors [excA, excA, excB]).exc.strerror
        = "Multiple errors occurred: \x7b" ++ reprException excA ++ ": 2, "
            ++ reprException excB ++ ": 1\x7d"
       ∧ (mkMultipleErrors [excA, excA, excB]).errors
        = [excA, excA, excB]) := by
  decide

/-- C7 amended: for distinct errors a and b, `MultipleErrors([a, a, b])`
counts a twice and b once, its summary is the `Counter` rendering of
those counts prefixed with "Multiple errors occurred: ", its display
form is that summary, and the `errors` attribute is the original
3-element sequence. -/
theorem C7_multiple_errors_summary (a b : BLException)
    (h : eqException a b = false) :
    mostCommon (counterItems [a, a, b]) = [(a, 2), (b, 1)] ∧
    (mkMultipleErrors [a, a, b]).exc.strerror
      = "Multiple errors occurred: " ++ counterRepr [(a, 2), (b, 1)] ∧
    strException (mkMultipleErrors [a, a, b]).exc
      = (mkMultipleErrors [a, a, b]).exc.strerror ∧
    (mkMultipleErrors [a, a, b]).errors = [a, a, b] := by
  have hrefl : eqException a a = true := by simp [eqException]
  have hcount : counterItems [a, a, b] = [(a, 2), (b, 1)] := by
    simp [counterItems, hrefl, h]
  have hmost : mostCommon (counterItems [a, a, b]) = [(a, 2), (b, 1)] := by
    rw [hcount]
    simp [mostCommon, insertDesc]
  refine ⟨hmost, ?_, ?_, rfl⟩
  · simp [mkMultipleErrors, initException, pyStr, multipleErrorsSummary, hmost]
  · simp [mkMultipleErrors, initException, strException]

/-- Witness for C7 amended: the concrete distinct pair
`exception(-1)`, `exception(-2)`. -/
theorem C7_multiple_errors_summary_witness :
    eqException excA excB = false ∧
    (mkMultipleErrors [excA, excA, excB]).exc.strerror
      = "Multiple errors occurred: " ++ counterRepr [(excA, 2), (excB, 1)] :=
  ⟨by decide, (C7_multiple_errors_summary excA excB (by decide)).2.1⟩

/-- C8: any input whose length is not 2 makes `check_error` end in the
decoding error, which is a distinct outcome from the classified protocol
errors; on length-2 inputs that branch is unreachable and the call
either returns normally or raises a classified error. -/
theorem C8_length_contract :
    (∀ b : List (Fin 256), b.length ≠ 2 →
      check_error b = CheckResult.structError) ∧
    (∀ b : List (Fin 256), b.length = 2 →
      check_error b ≠ CheckResult.structError ∧
      (check_error b = CheckResult.ok ∨
        ∃ c : Int, c ≠ 0 ∧ check_error b = CheckResult.raised (exception c))) := by
  constructor
  · intro b hb
    match b with
    | [] => rfl
    | [x] => rfl
    | [x, y] => exact absurd rfl hb
    | x :: y :: z :: rest => rfl
  · intro b hb
    match b with
    | [] => simp at hb
    | [x] => simp at hb
    | [b0, b1] =>
        by_cases h : decode16 b0 b1 = 0
        · constructor
          · simp [check_error, unpack_h, h]
          · left
            simp [check_error, unpack_h, h]
        · constructor
          · simp [check_error, unpack_h, h]
          · right
            exact ⟨decode16 b0 b1, h, by simp [check_error, unpack_h, h]⟩
    | x :: y :: z :: rest => simp at hb

/-- Witness for C8 at the empty input and at the two-byte zero input. -/
theorem C8_length_contract_witness :
    check_error [] = CheckResult.structError ∧
    (check_error [(0 : Fin 256), (0 : Fin 256)] ≠ CheckResult.structError ∧
      (check_error [(0 : Fin 256), (0 : Fin 256)] = CheckResult.ok ∨
        ∃ c : Int, c ≠ 0 ∧
          check_error [(0 : Fin 256), (0 : Fin 256)]
            = CheckResult.raised (exception c))) :=
  ⟨C8_length_contract.1 [] (by decide),
   C8_length_contract.2 [(0 : Fin 256), (0 : Fin 256)] (by decide)⟩

/-- C9: equality of two `MultipleErrors` values is decided solely by the
rendered summary string (their single stored argument): equal summaries
mean equal values even for different ordered sequences, and sequences
with identical multisets whose summaries render differently give unequal
values. The last two conjuncts exhibit both situations concretely. -/
theorem C9_multiple_errors_equality (xs ys : List BLException) :
    (eqException (mkMultipleErrors xs).exc (mkMultipleErrors ys).exc = true
      ↔ multipleErrorsSummary xs = multipleErrorsSummary ys) ∧
    (mkMultipleErrors xs).exc.args
      = [PyVal.str (multipleErrorsSummary xs)] ∧
    (multipleErrorsSummary [excA, excB, excA]
        = multipleErrorsSummary [excA, excA, excB] ∧
      [excA, excB, excA] ≠ [excA, excA, excB] ∧
      eqException (mkMultipleErrors [excA, excB, excA]).exc
        (mkMultipleErrors [excA, excA, excB]).exc = true) ∧
    (List.Perm [excA, excB] [excB, excA] ∧
      multipleErrorsSummary [excA, excB] ≠ multipleErrorsSummary [excB, excA] ∧
      eqException (mkMultipleErrors [excA, excB]).exc
        (mkMultipleErrors [excB, excA]).exc = false) := by
  refine ⟨?_, rfl, by decide, List.Perm.swap excB excA [], by decide, by decide⟩
  simp [eqException, mkMultipleErrors, initException]

/-- C10: zero-argument construction yields no errno, the empty message
and the empty display form; construction with three or more arguments
joins the `str()` of every argument after the first with `": "` into
the message, the first argument becoming the errno. -/
theorem C10_defaults_and_join (ty : ExceptionType) (v1 v2 : PyVal)
    (rest : List PyVal) (h : rest ≠ []) :
    ((initException ty []).errno = none ∧
      (initException ty []).strerror = "" ∧
      strException (initException ty []) = "") ∧
    (initException ty (v1 :: v2 :: rest)).errno = some v1 ∧
    (initException ty (v1 :: v2 :: rest)).strerror
      = pyStr v2 ++ ": " ++ joinSep ": " (rest.map pyStr) := by
  refine ⟨⟨rfl, rfl, rfl⟩, ?_, ?_⟩
  · cases rest with
    | nil => exact absurd rfl h
    | cons r rs => rfl
  · cases rest with
    | nil => exact absurd rfl h
    | cons r rs => rfl

/-- Witness for C10: a three-argument construction joins the second and
third arguments. -/
theorem C10_defaults_and_join_witness :
    strException (initException ExceptionType.BroadlinkException []) = "" ∧
    (initException ExceptionType.BroadlinkException
        [PyVal.int 1, PyVal.int 2, PyVal.int 3]).errno = some (PyVal.int 1) ∧
    (initException ExceptionType.BroadlinkException
        [PyVal.int 1, PyVal.int 2, PyVal.int 3]).strerror = "2: 3" := by
  have h := C10_defaults_and_join ExceptionType.BroadlinkException
      (PyVal.int 1) (PyVal.int 2) [PyVal.int 3] (by decide)
  exact ⟨h.1.2.2, h.2.1, h.2.2.trans (by decide)⟩
